import Mathlib

/-!
Shallow embedding of the authentication core of a learning-management-system
backend (files `app/core/security.py`, `app/core/security_utils.py`,
`app/core/auth.py`, `app/routers/auth.py`), together with theorems checking
the natural-language specification of that core against the code.

Machine time is modelled as natural-number seconds; Python `timedelta`
arguments are converted to seconds (`minutes * 60`, `days * 86400`).
Python exceptions are modelled with `Except`; the cryptographic primitives
(bcrypt check, JWT signature) are modelled by executable functions or by an
oracle parameter where only their control flow matters.
-/

set_option maxRecDepth 4096

/-- The subset of `app/core/config.py`'s `Settings` object that the
authentication core reads. -/
structure Settings where
  SECRET_KEY : String
  ACCESS_TOKEN_EXPIRE_MINUTES : Nat
  REFRESH_TOKEN_EXPIRE_DAYS : Nat
  MIN_PASSWORD_LENGTH : Nat
  PASSWORD_REQUIRE_UPPERCASE : Bool
  PASSWORD_REQUIRE_LOWERCASE : Bool
  PASSWORD_REQUIRE_DIGIT : Bool
  PASSWORD_REQUIRE_SPECIAL : Bool
deriving DecidableEq

/-- The defaults declared in `app/core/config.py` (the secret key is random
at process start; a fixed stand-in is used for concrete evaluations). -/
def defaultSettings : Settings :=
  { SECRET_KEY := "process-secret"
    ACCESS_TOKEN_EXPIRE_MINUTES := 30
    REFRESH_TOKEN_EXPIRE_DAYS := 7
    MIN_PASSWORD_LENGTH := 12
    PASSWORD_REQUIRE_UPPERCASE := true
    PASSWORD_REQUIRE_LOWERCASE := true
    PASSWORD_REQUIRE_DIGIT := true
    PASSWORD_REQUIRE_SPECIAL := true }

/-- A JSON-serialisable claim value: JWT payloads here hold strings and
numbers (datetimes are serialised to numeric epoch seconds). -/
inductive ClaimVal where
  | s (v : String)
  | n (v : Nat)
deriving DecidableEq

/-- A JWT payload: a flat mapping from claim names to values, as a
Python dict preserving insertion order. -/
abbrev Claims := List (String × ClaimVal)

/-- `payload.get(k)`: first binding of `k`, if any. -/
def Claims.get (c : Claims) (k : String) : Option ClaimVal :=
  (c.find? (fun kv => kv.1 == k)).map (fun kv => kv.2)

/-- Python `dict` update of a single key: replace in place if present,
else append. -/
def Claims.set (c : Claims) (k : String) (v : ClaimVal) : Claims :=
  if c.any (fun kv => kv.1 == k) then
    c.map (fun kv => if kv.1 == k then (k, v) else kv)
  else
    c ++ [(k, v)]

/-- Errors raised by the `jose` JWT library (all are subclasses of
`JWTError`): signature mismatch, malformed token, expired token, and a
claim that cannot be interpreted (e.g. a non-numeric `exp`). -/
inductive JoseErr where
  | badSignature
  | malformed
  | expired
  | badClaims
deriving DecidableEq

/-- Python exceptions crossing the boundaries modelled here. -/
inductive PyExc where
  | importError
  | jose (e : JoseErr)
  | http (code : Nat) (detail : String)
  | valueError (msg : String)
  | unknownHashError
  | typeError
deriving DecidableEq

/-- A JWT on the wire: either a structurally well-formed signed payload
(carrying the signature actually attached to it) or a malformed string. -/
inductive JoseToken where
  | signed (payload : Claims) (sig : Nat)
  | malformed (raw : String)
deriving DecidableEq

/-- Canonical serialisation of a claim value, used by the modelled
signature function. -/
def ClaimVal.serialize : ClaimVal → String
  | .s v => "s:" ++ v
  | .n v => "n:" ++ toString v

/-- The modelled HMAC: a deterministic digest of the serialised payload
and the symmetric key. Collisions are irrelevant to the claims proved
here; what matters is that the digest depends on payload and key and is
recomputed identically at verification time. -/
def sigOf (p : Claims) (key : String) : Nat :=
  (((p.foldl (fun acc kv => acc ++ "|" ++ kv.1 ++ "=" ++ kv.2.serialize) "") ++ "#" ++ key).toList).foldl
    (fun acc c => acc * 131 + c.toNat) 7

/-- `jose.jwt.encode(payload, key, algorithm)`: sign the payload. -/
def jwtEncode (p : Claims) (key : String) : JoseToken :=
  JoseToken.signed p (sigOf p key)

/-- `jose.jwt.decode(token, key, algorithms)`: verify structure, signature
and (when an `exp` claim is present) expiry; raise a `JWTError` on any
failure. A token is valid at `now` while `now < exp`. -/
def jwtDecode (tok : JoseToken) (key : String) (now : Nat) : Except JoseErr Claims :=
  match tok with
  | .malformed _ => .error .malformed
  | .signed p sig =>
    if sig = sigOf p key then
      match p.get "exp" with
      | some (.n e) => if now < e then .ok p else .error .expired
      | some (.s _) => .error .badClaims
      | none => .ok p
    else
      .error .badSignature

/-- `sanitize_input` (`app/core/security_utils.py`): `bleach.clean(value,
tags=[], strip=True)` — markup is stripped; modelled as removal of every
`<`…`>` tag region, keeping the text outside tags. -/
def stripTagChars : List Char → Bool → List Char
  | [], _ => []
  | c :: rest, true => if c = '>' then stripTagChars rest false else stripTagChars rest true
  | c :: rest, false =>
    if c = '<' then stripTagChars rest true else c :: stripTagChars rest false

/-- `sanitize_input(value)` for string input. -/
def sanitize_input (s : String) : String :=
  String.mk (stripTagChars s.toList false)

/-- Sanitize every string-valued claim in a payload, as the loops in
`create_access_token` / `create_refresh_token` do. -/
def sanitizeClaims (c : Claims) : Claims :=
  c.map (fun kv =>
    match kv.2 with
    | .s v => (kv.1, ClaimVal.s (sanitize_input v))
    | x => (kv.1, x))

/-- `create_access_token(data, expires_delta)` (`app/core/security.py`):
copy the data, compute the expiry instant (`expires_delta` in seconds, or
the configured default minutes), set `exp`, `type="access"`, `iat`,
sanitize string claims, and sign with the configured secret. -/
def create_access_token (st : Settings) (data : Claims) (expiresDelta : Option Nat)
    (now : Nat) : JoseToken :=
  let expire :=
    match expiresDelta with
    | some d => now + d
    | none => now + 60 * st.ACCESS_TOKEN_EXPIRE_MINUTES
  let toEncode :=
    ((data.set "exp" (ClaimVal.n expire)).set "type" (ClaimVal.s "access")).set "iat"
      (ClaimVal.n now)
  jwtEncode (sanitizeClaims toEncode) st.SECRET_KEY

/-- `create_refresh_token(data)` (`app/core/security.py`): same shape with
`type="refresh"` and a day-scale expiry. -/
def create_refresh_token (st : Settings) (data : Claims) (now : Nat) : JoseToken :=
  let expire := now + 86400 * st.REFRESH_TOKEN_EXPIRE_DAYS
  let toEncode :=
    ((data.set "exp" (ClaimVal.n expire)).set "type" (ClaimVal.s "refresh")).set "iat"
      (ClaimVal.n now)
  jwtEncode (sanitizeClaims toEncode) st.SECRET_KEY

instance {ε α : Type} [DecidableEq ε] [DecidableEq α] : DecidableEq (Except ε α) := fun x y =>
  match x, y with
  | .ok a, .ok b =>
    if h : a = b then .isTrue (by rw [h]) else
      .isFalse (fun hc => h (by injection hc))
  | .error a, .error b =>
    if h : a = b then .isTrue (by rw [h]) else
      .isFalse (fun hc => h (by injection hc))
  | .ok _, .error _ => .isFalse (fun hc => Except.noConfusion hc)
  | .error _, .ok _ => .isFalse (fun hc => Except.noConfusion hc)

/-- The `HTTPException(401, "Could not validate credentials")` raised by
`decode_token` and reused as `credentials_exception` in
`get_current_user`. -/
def credentialsExc : PyExc := PyExc.http 401 "Could not validate credentials"

/-- `decode_token(token)` (`app/core/security.py`): decode with the
configured secret; any `JWTError` is replaced by the single opaque
401 `HTTPException`. -/
def decode_token (st : Settings) (now : Nat) (tok : JoseToken) : Except PyExc Claims :=
  match jwtDecode tok st.SECRET_KEY now with
  | .ok p => .ok p
  | .error _ => .error credentialsExc

/-- The validation dict `{"valid": ..., "message": ...}` returned by
`validate_password_strength`. -/
structure ValidationResult where
  valid : Bool
  message : String
deriving DecidableEq

/-- The length failure message, with the configured minimum interpolated. -/
def lengthMsg (n : Nat) : String :=
  "Password must be at least " ++ toString n ++ " characters long"

/-- The character class `[!@#$%^&*(),.?\":{}|<>]` of the special-character
rule (braces written as escapes). -/
def specialChars : List Char :=
  "!@#$%^&*(),.?\":\x7b\x7d|<>".toList

/-- The common-password deny-list (matched case-insensitively, exactly). -/
def commonPasswords : List String :=
  ["password", "123456", "qwerty", "admin", "welcome", "password123"]

/-- The alternatives of the sequential-characters regex, verbatim from the
source: ascending alphabetic triples `abc`..`xyz`, ascending numeric
triples `012`..`789`, and descending numeric triples `987`..`210`. -/
def seqTriples : List String :=
  ["abc", "bcd", "cde", "def", "efg", "fgh", "ghi", "hij", "ijk", "jkl",
   "klm", "lmn", "mno", "nop", "opq", "pqr", "qrs", "rst", "stu", "tuv",
   "uvw", "vwx", "wxy", "xyz",
   "012", "123", "234", "345", "456", "567", "678", "789",
   "987", "876", "765", "654", "543", "432", "321", "210"]

/-- Whether `pat` occurs at the head of `s`. -/
def charsStartWith (s pat : List Char) : Bool :=
  match pat, s with
  | [], _ => true
  | _ :: _, [] => false
  | p :: ps, c :: cs => c == p && charsStartWith cs ps

/-- Whether `pat` occurs anywhere in `s` (i.e. `re.search` of a literal). -/
def charsContain (s pat : List Char) : Bool :=
  charsStartWith s pat ||
    match s with
    | [] => false
    | _ :: rest => charsContain rest pat

/-- The backreference regex `(.)\1{2,}`: some character occurs 3+ times
consecutively. -/
def hasTripleRepeat : List Char → Bool
  | a :: b :: c :: rest => (a == b && b == c) || hasTripleRepeat (b :: c :: rest)
  | _ => false

/-- Python `str.lower()` on the ASCII range the policy inspects. -/
def pyLower (s : String) : String :=
  String.mk (s.toList.map Char.toLower)

/-- `validate_password_strength(password)`
(`app/core/security_utils.py`): applies the rules in source order and
returns the first failing reason. -/
def validate_password_strength (st : Settings) (password : String) : ValidationResult :=
  if password.length < st.MIN_PASSWORD_LENGTH then
    ⟨false, lengthMsg st.MIN_PASSWORD_LENGTH⟩
  else if st.PASSWORD_REQUIRE_UPPERCASE &&
      !(password.toList.any (fun c => 'A' ≤ c && c ≤ 'Z')) then
    ⟨false, "Password must contain at least one uppercase letter"⟩
  else if st.PASSWORD_REQUIRE_LOWERCASE &&
      !(password.toList.any (fun c => 'a' ≤ c && c ≤ 'z')) then
    ⟨false, "Password must contain at least one lowercase letter"⟩
  else if st.PASSWORD_REQUIRE_DIGIT &&
      !(password.toList.any (fun c => '0' ≤ c && c ≤ '9')) then
    ⟨false, "Password must contain at least one digit"⟩
  else if st.PASSWORD_REQUIRE_SPECIAL &&
      !(password.toList.any (fun c => specialChars.contains c)) then
    ⟨false, "Password must contain at least one special character"⟩
  else if commonPasswords.contains (pyLower password) then
    ⟨false, "This password is too common and easily guessed"⟩
  else if seqTriples.any (fun t => charsContain (pyLower password).toList t.toList) then
    ⟨false, "Password contains sequential characters"⟩
  else if hasTripleRepeat password.toList then
    ⟨false, "Password contains too many repeated characters"⟩
  else
    ⟨true, "Password is strong"⟩

/-- passlib hash identification: `CryptContext(schemes=["bcrypt"])`
recognises a hash by its bcrypt prefix. A string without a recognised
prefix makes `verify` raise `UnknownHashError`. -/
def bcryptRecognized (h : String) : Bool :=
  charsStartWith h.toList "$2b$".toList || charsStartWith h.toList "$2a$".toList ||
    charsStartWith h.toList "$2y$".toList

/-- `pwd_context.verify(plain, hashed)`: identify the hash, then run the
bcrypt check (the cryptographic comparison itself is an oracle
parameter `checker`); an unidentifiable hash raises. -/
def pwd_context_verify (checker : String → String → Bool) (plain hashed : String) :
    Except PyExc Bool :=
  if bcryptRecognized hashed then .ok (checker plain hashed) else .error .unknownHashError

/-- `verify_password(plain_password, hashed_password)`
(`app/core/security.py`): a direct delegation to `pwd_context.verify`,
with no exception handling of its own. -/
def verify_password (checker : String → String → Bool) (plain hashed : String) :
    Except PyExc Bool :=
  pwd_context_verify checker plain hashed

/-- `get_password_hash(password)` (`app/core/security.py`): validate
strength first and raise `ValueError(message)` when invalid; otherwise
hash (`pwd_context.hash` is the oracle `hasher`). -/
def get_password_hash (st : Settings) (hasher : String → String) (password : String) :
    Except PyExc String :=
  let validation := validate_password_strength st password
  if !validation.valid then .error (.valueError validation.message)
  else .ok (hasher password)

/-- The fields of the `User` ORM model that the authentication core
reads (`app/db/models.py`). -/
structure User where
  id : Nat
  email : String
  hashed_password : String
  role : String
  is_active : Bool
deriving DecidableEq

/-- The `Token` response dict
`{"access_token": ..., "refresh_token": ..., "token_type": "bearer"}`. -/
structure TokenPair where
  access_token : JoseToken
  refresh : JoseToken
  token_type : String
deriving DecidableEq

/-- The precomputed dummy bcrypt hash the login flow verifies against when
no account matches the supplied email. -/
def dummyBcryptHash : String :=
  "$2b$12$rvMGRrXtBgmkK9QYeHv0g.7O8hSNO/xVnZwgGTkaVixW4TwKm5Mgu"

/-- The outcome of a login request: the HTTP-level result plus the number
of `verify_password` invocations performed while computing it. -/
structure LoginOutcome where
  result : Except PyExc TokenPair
  verifyCalls : Nat
deriving DecidableEq

/-- The outer `except Exception` of the login route: `HTTPException`s are
re-raised unchanged, anything else becomes a generic 500. -/
def loginWrapExc : PyExc → PyExc
  | PyExc.http c d => PyExc.http c d
  | _ => PyExc.http 500 "Authentication failed. Please try again later."

/-- The `login` route (`app/routers/auth.py`): sanitize the username, look
the account up, always run one password verification (against the stored
hash, or against the dummy hash when no account was found, the result then
being discarded), and fail with one generic 401 when the account is
missing or the password wrong; an inactive account with a correct password
gets the distinct 403. -/
def login (st : Settings) (checker : String → String → Bool) (db : List User)
    (username password : String) (now : Nat) : LoginOutcome :=
  match db.find? (fun u => u.email == sanitize_input username) with
  | some u =>
    match verify_password checker password u.hashed_password with
    | .error e => ⟨.error (loginWrapExc e), 1⟩
    | .ok isValid =>
      if !isValid then
        ⟨.error (PyExc.http 401 "Invalid login credentials"), 1⟩
      else if !u.is_active then
        ⟨.error (PyExc.http 403 "This account has been deactivated"), 1⟩
      else
        ⟨.ok
          { access_token :=
              create_access_token st
                [("sub", ClaimVal.s u.email), ("role", ClaimVal.s u.role),
                 ("user_id", ClaimVal.n u.id)]
                (some (60 * st.ACCESS_TOKEN_EXPIRE_MINUTES)) now
            refresh :=
              create_refresh_token st
                [("sub", ClaimVal.s u.email), ("role", ClaimVal.s u.role),
                 ("user_id", ClaimVal.n u.id)] now
            token_type := "bearer" }, 1⟩
  | none =>
    match verify_password checker password dummyBcryptHash with
    | .error e => ⟨.error (loginWrapExc e), 1⟩
    | .ok _ => ⟨.error (PyExc.http 401 "Invalid login credentials"), 1⟩

/-- The module-level names defined in `app/core/security.py` (its imports
plus its own definitions). Neither `SECRET_KEY` nor `ALGORITHM` is among
them — the module reads `settings.SECRET_KEY` instead of defining its
own. -/
def securityModuleNames : List String :=
  ["datetime", "timedelta", "Optional", "Dict", "Any", "jwt", "JWTError",
   "CryptContext", "BaseModel", "Request", "HTTPException", "status",
   "settings", "sanitize_input", "validate_password_strength",
   "pwd_context", "TokenData", "verify_password", "get_password_hash",
   "create_access_token", "create_refresh_token", "decode_token"]

/-- The body of the `refresh_token` route inside its `try`: the
`from app.core.security import SECRET_KEY, ALGORITHM` statement runs
first and raises `ImportError` when either name is missing from the
module; only then would the decode, type check, lookup and token
issuance run. -/
def refresh_token_body (st : Settings) (db : List User) (now : Nat) (tok : JoseToken) :
    Except PyExc TokenPair :=
  if !(["SECRET_KEY", "ALGORITHM"].all (fun n => securityModuleNames.contains n)) then
    .error PyExc.importError
  else
    match jwtDecode tok st.SECRET_KEY now with
    | .error e => .error (PyExc.jose e)
    | .ok payload =>
      if payload.get "type" != some (ClaimVal.s "refresh") then
        .error (PyExc.http 401 "Invalid token type")
      else
        match payload.get "sub" with
        | none => .error (PyExc.http 401 "Could not validate credentials")
        | some emailClaim =>
          match db.find? (fun u => emailClaim == ClaimVal.s u.email) with
          | none => .error (PyExc.http 401 "User not found")
          | some u =>
            if !u.is_active then .error (PyExc.http 403 "Inactive user")
            else
              .ok
                { access_token :=
                    create_access_token st
                      [("sub", ClaimVal.s u.email), ("role", ClaimVal.s u.role)]
                      (some (60 * st.ACCESS_TOKEN_EXPIRE_MINUTES)) now
                  refresh :=
                    create_refresh_token st
                      [("sub", ClaimVal.s u.email), ("role", ClaimVal.s u.role)] now
                  token_type := "bearer" }

/-- The `refresh_token` route (`app/routers/auth.py`): the whole body sits
in `try: ... except Exception:` whose handler raises
`HTTPException(401, "Invalid refresh token")`, so every failure — the
`ImportError` included — surfaces as that one 401. -/
def refresh_token_endpoint (st : Settings) (db : List User) (now : Nat) (tok : JoseToken) :
    Except PyExc TokenPair :=
  match refresh_token_body st db now tok with
  | .ok t => .ok t
  | .error _ => .error (PyExc.http 401 "Invalid refresh token")

/-- `get_current_user` (`app/core/auth.py`). First `try` block (handler:
`except JWTError` → `credentials_exception`): decode, check
`type == "access"`, extract and sanitize `sub` and `role` (sanitizing a
non-string claim raises `TypeError` in bleach). Second `try` block
(handler: `except Exception` → 500): database lookup, the 401 for a
missing user and the 403 for an inactive one — both raised inside this
`try`, whose catch-all also catches `HTTPException`. -/
def get_current_user (st : Settings) (db : List User) (now : Nat) (tok : JoseToken) :
    Except PyExc User :=
  let phase1 : Except PyExc (String × String) :=
    match decode_token st now tok with
    | .error e => .error e
    | .ok payload =>
      if payload.get "type" != some (ClaimVal.s "access") then .error credentialsExc
      else
        match payload.get "sub" with
        | none => .error credentialsExc
        | some (ClaimVal.n _) => .error PyExc.typeError
        | some (ClaimVal.s email) =>
          match payload.get "role" with
          | some (ClaimVal.n _) => .error PyExc.typeError
          | some (ClaimVal.s r) => .ok (sanitize_input email, sanitize_input r)
          | none => .ok (sanitize_input email, sanitize_input "")
  let phase1' : Except PyExc (String × String) :=
    match phase1 with
    | .error (PyExc.jose _) => .error credentialsExc
    | x => x
  match phase1' with
  | .error e => .error e
  | .ok td =>
    let inner : Except PyExc User :=
      match db.find? (fun u => u.email == td.1) with
      | none => .error credentialsExc
      | some u =>
        if !u.is_active then .error (PyExc.http 403 "Inactive user")
        else .ok u
    match inner with
    | .ok u => .ok u
    | .error _ => .error (PyExc.http 500 "Internal server error")

/-- The fields of the `Course` ORM model used by ownership checks. -/
structure Course where
  id : Nat
  instructor_id : Nat
deriving DecidableEq

/-- The fields of the `BlogPost` ORM model used by ownership checks. -/
structure BlogPost where
  id : Nat
  author_id : Nat
deriving DecidableEq

/-- The Python value returned by `verify_resource_owner`: `resource and
resource.owner == user_id` evaluates to `None` when the lookup returned
`None`, and to a `bool` otherwise. -/
inductive PyVal where
  | none
  | bool (b : Bool)
deriving DecidableEq

/-- Python truthiness of such a value. -/
def PyVal.truthy : PyVal → Bool
  | .none => false
  | .bool b => b

/-- `verify_resource_owner(resource_id, resource_type, user_id)`
(`app/core/auth.py`): fetch the resource and evaluate
`resource and resource.<owner> == user_id`; unknown resource types yield
`False`. -/
def verify_resource_owner (courses : List Course) (posts : List BlogPost)
    (resource_id : Nat) (resource_type : String) (user_id : Nat) : PyVal :=
  if resource_type == "course" then
    match courses.find? (fun c => c.id == resource_id) with
    | Option.none => PyVal.none
    | some r => PyVal.bool (r.instructor_id == user_id)
  else if resource_type == "blog" then
    match posts.find? (fun p => p.id == resource_id) with
    | Option.none => PyVal.none
    | some r => PyVal.bool (r.author_id == user_id)
  else
    PyVal.bool false

/-- ASCII lowercase letter. -/
def isAsciiLetter (c : Char) : Bool :=
  97 ≤ c.toNat && c.toNat ≤ 122

/-- ASCII digit. -/
def isAsciiDigit (c : Char) : Bool :=
  48 ≤ c.toNat && c.toNat ≤ 57

/-- Scan a character list for any window of three consecutive characters
satisfying `f`. -/
def scanTriples (f : Char → Char → Char → Bool) : List Char → Bool
  | a :: b :: c :: rest => f a b c || scanTriples f (b :: c :: rest)
  | _ => false

/-- Stated from the spec's words for claim C9: three consecutive
characters forming an ascending or descending alphabetic or numeric run
(evaluated on the lowercased password, hence case-insensitive). -/
def specRunTriple (a b c : Char) : Bool :=
  ((isAsciiLetter a && isAsciiLetter b && isAsciiLetter c) ||
   (isAsciiDigit a && isAsciiDigit b && isAsciiDigit c)) &&
  ((b.toNat == a.toNat + 1 && c.toNat == b.toNat + 1) ||
   (a.toNat == b.toNat + 1 && b.toNat == c.toNat + 1))

/-- Whether the password contains a 3-character run in the spec's sense. -/
def specHasSequentialRun (pw : String) : Bool :=
  scanTriples specRunTriple (pyLower pw).toList

/-- The run shapes the source's regex alternatives actually cover:
ascending alphabetic, ascending numeric, or descending numeric. -/
def codeRunTriple (a b c : Char) : Bool :=
  (isAsciiLetter a && isAsciiLetter c &&
    (b.toNat == a.toNat + 1) && (c.toNat == a.toNat + 2)) ||
  (isAsciiDigit a && isAsciiDigit c &&
    (b.toNat == a.toNat + 1) && (c.toNat == a.toNat + 2)) ||
  (isAsciiDigit a && isAsciiDigit c &&
    (b.toNat == c.toNat + 1) && (a.toNat == c.toNat + 2))

/-- Whether the password contains a run of one of the covered shapes. -/
def codeHasSequentialRun (pw : String) : Bool :=
  scanTriples codeRunTriple (pyLower pw).toList

/-- C1: for every refresh-token request — any token, any database state,
any time — the refresh operation fails with the 401 "Invalid refresh
token" response and never returns a token pair: the
`from app.core.security import SECRET_KEY, ALGORITHM` in its body raises
on every call (the module defines neither name) and the surrounding
`except Exception` converts every failure into that one 401. -/
theorem c1_refresh_always_invalid (st : Settings) (db : List User) (now : Nat)
    (tok : JoseToken) :
    refresh_token_endpoint st db now tok = .error (PyExc.http 401 "Invalid refresh token") :=
  rfl

/-- C2 (code bug): the Authorization Gate is supposed to answer 401 for a
valid token whose subject matches no user and 403 "Inactive user" for a
deactivated user, and `get_current_user` raises exactly those
`HTTPException`s — but it raises them inside the `try` whose
`except Exception` catches them, so both observable responses are the 500
"Internal server error". Evaluated here at a well-formed, unexpired,
correctly-signed access token against an empty user table and against a
table holding only a deactivated user. -/
theorem c2_gate_masks_401_403 :
    get_current_user defaultSettings [] 10
        (create_access_token defaultSettings
          [("sub", ClaimVal.s "ghost@example.com"), ("role", ClaimVal.s "user")]
          (some 1800) 0) =
      .error (PyExc.http 500 "Internal server error") ∧
    get_current_user defaultSettings
        [{ id := 1, email := "ghost@example.com", hashed_password := dummyBcryptHash,
           role := "user", is_active := false }] 10
        (create_access_token defaultSettings
          [("sub", ClaimVal.s "ghost@example.com"), ("role", ClaimVal.s "user")]
          (some 1800) 0) =
      .error (PyExc.http 500 "Internal server error") := by
  constructor <;> rfl

/-- C7: a password shorter than the configured minimum is rejected by
`validate_password_strength` with the length reason (the length rule is
applied first), and `get_password_hash` on such a password raises instead
of hashing. -/
theorem c7_short_password_refused (st : Settings) (hasher : String → String) (pw : String)
    (h : pw.length < st.MIN_PASSWORD_LENGTH) :
    validate_password_strength st pw = ⟨false, lengthMsg st.MIN_PASSWORD_LENGTH⟩ ∧
    get_password_hash st hasher pw = .error (PyExc.valueError (lengthMsg st.MIN_PASSWORD_LENGTH)) := by
  have h1 : validate_password_strength st pw = ⟨false, lengthMsg st.MIN_PASSWORD_LENGTH⟩ := by
    unfold validate_password_strength
    rw [if_pos h]
  refine ⟨h1, ?_⟩
  simp [get_password_hash, h1]

/-- Witness for C7 at the concrete password "Ab1!x" (5 < 12). -/
theorem c7_short_password_refused_witness :
    validate_password_strength defaultSettings "Ab1!x" = ⟨false, lengthMsg 12⟩ ∧
    get_password_hash defaultSettings id "Ab1!x" = .error (PyExc.valueError (lengthMsg 12)) :=
  c7_short_password_refused defaultSettings id "Ab1!x" (by decide)

/-- C8 counterexample: `verify_password` called on a malformed hash does
not return `false` — the underlying passlib `UnknownHashError` propagates
(the function installs no handler), refuting "never throws; on malformed
hash input it returns false". -/
theorem c8_counterexample_malformed_hash_raises :
    verify_password (fun _ _ => false) "any-password" "not-a-hash" =
      .error PyExc.unknownHashError := by
  decide

/-- C8 amended: for every bcrypt checker, plain password and hash string,
`verify_password` returns the checker's boolean whenever the hash is of a
format the library recognises, and raises `UnknownHashError` (rather than
returning `false`) whenever it is not. -/
theorem c8_verify_behaviour (checker : String → String → Bool) (plain hashed : String) :
    (bcryptRecognized hashed = true →
      verify_password checker plain hashed = .ok (checker plain hashed)) ∧
    (bcryptRecognized hashed = false →
      verify_password checker plain hashed = .error PyExc.unknownHashError) := by
  constructor <;> intro h <;> simp [verify_password, pwd_context_verify, h]

/-- Witness for C8's amended theorem at a recognised and an unrecognised
hash. -/
theorem c8_verify_behaviour_witness :
    verify_password (fun _ _ => true) "pw" dummyBcryptHash = .ok true ∧
    verify_password (fun _ _ => true) "pw" "zzz" = .error PyExc.unknownHashError :=
  ⟨(c8_verify_behaviour (fun _ _ => true) "pw" dummyBcryptHash).1 (by decide),
   (c8_verify_behaviour (fun _ _ => true) "pw" "zzz").2 (by decide)⟩

/-- C10 counterexample: for a course id with no matching course, the
ownership check evaluates `resource and resource.instructor_id == user_id`
with `resource = None` and therefore returns Python `None`, not the
boolean `False` (nor `True`) the claim requires. -/
theorem c10_counterexample_missing_course_returns_none :
    verify_resource_owner [] [] 1 "course" 42 = PyVal.none ∧
    PyVal.none ≠ PyVal.bool false ∧ PyVal.none ≠ PyVal.bool true := by
  decide

/-- C10 amended: the course-ownership check never raises and its result is
truthy exactly when a course with the given id exists and its
`instructor_id` equals the requesting user id; when the course exists with
a different owner the result is the boolean `False`, but when no course
matches the result is `None` (falsy, yet not a boolean); the requester's
role plays no part. -/
theorem c10_course_ownership (courses : List Course) (posts : List BlogPost)
    (rid uid : Nat) :
    ((verify_resource_owner courses posts rid "course" uid).truthy = true ↔
      ∃ r, courses.find? (fun c => c.id == rid) = some r ∧ r.instructor_id = uid) ∧
    (courses.find? (fun c => c.id == rid) = Option.none →
      verify_resource_owner courses posts rid "course" uid = PyVal.none) ∧
    (∀ r, courses.find? (fun c => c.id == rid) = some r →
      verify_resource_owner courses posts rid "course" uid =
        PyVal.bool (r.instructor_id == uid)) := by
  have hred : verify_resource_owner courses posts rid "course" uid =
      (match courses.find? (fun c => c.id == rid) with
       | Option.none => PyVal.none
       | some r => PyVal.bool (r.instructor_id == uid)) := rfl
  rw [hred]
  cases hfind : courses.find? (fun c => c.id == rid) with
  | none =>
    exact ⟨by simp [PyVal.truthy], fun _ => rfl, fun r hr => by simp at hr⟩
  | some r =>
    refine ⟨?_, fun hn => by simp at hn, fun r' hr' => by
      injection hr' with h
      rw [h]⟩
    simp only [PyVal.truthy]
    constructor
    · intro ht
      exact ⟨r, rfl, by simpa using ht⟩
    · rintro ⟨r', hr', hid⟩
      injection hr' with h
      subst h
      simpa using hid

/-- C5: `decode_token` either returns the claims or fails with the single
opaque 401 `HTTPException("Could not validate credentials")`, identically
for every failure cause; in particular a token issued with a 1-second TTL
and decoded 2 seconds later fails with exactly that error. -/
theorem c5_decode_single_opaque_error :
    (∀ (st : Settings) (now : Nat) (tok : JoseToken),
      (∃ p, decode_token st now tok = .ok p) ∨
      decode_token st now tok = .error (PyExc.http 401 "Could not validate credentials")) ∧
    (∀ (st : Settings) (sub role : String) (now : Nat),
      decode_token st (now + 2)
        (create_access_token st [("sub", ClaimVal.s sub), ("role", ClaimVal.s role)]
          (some 1) now) =
      .error (PyExc.http 401 "Could not validate credentials")) := by
  constructor
  · intro st now tok
    unfold decode_token credentialsExc
    cases jwtDecode tok st.SECRET_KEY now with
    | ok p => exact .inl ⟨p, rfl⟩
    | error e => exact .inr rfl
  · intro st sub role now
    have hlt : ¬ (now + 2 < now + 1) := by omega
    unfold decode_token create_access_token jwtEncode jwtDecode
    simp [Claims.set, sanitizeClaims, Claims.get, hlt, credentialsExc]

/-- C6: decoding an access token issued for a subject and role, before its
expiry, succeeds and yields a claims mapping carrying that (sanitized)
subject, that (sanitized) role, and `type = "access"`. -/
theorem c6_access_token_round_trip (st : Settings) (sub role : String)
    (now delta t : Nat) (h : t < now + delta) :
    ∃ p,
      decode_token st t
          (create_access_token st [("sub", ClaimVal.s sub), ("role", ClaimVal.s role)]
            (some delta) now) = .ok p ∧
      p.get "sub" = some (ClaimVal.s (sanitize_input sub)) ∧
      p.get "role" = some (ClaimVal.s (sanitize_input role)) ∧
      p.get "type" = some (ClaimVal.s "access") := by
  have haccess : sanitize_input "access" = "access" := by decide
  refine ⟨[("sub", ClaimVal.s (sanitize_input sub)), ("role", ClaimVal.s (sanitize_input role)),
           ("exp", ClaimVal.n (now + delta)), ("type", ClaimVal.s "access"),
           ("iat", ClaimVal.n now)], ?_, rfl, rfl, rfl⟩
  unfold decode_token create_access_token jwtEncode jwtDecode
  simp [Claims.set, sanitizeClaims, Claims.get, h, haccess]

/-- Witness for C6 at a concrete subject, role and pre-expiry decode
time. -/
theorem c6_access_token_round_trip_witness :
    ∃ p,
      decode_token defaultSettings 30
          (create_access_token defaultSettings
            [("sub", ClaimVal.s "a@b.co"), ("role", ClaimVal.s "user")] (some 60) 0) = .ok p ∧
      p.get "sub" = some (ClaimVal.s (sanitize_input "a@b.co")) ∧
      p.get "role" = some (ClaimVal.s (sanitize_input "user")) ∧
      p.get "type" = some (ClaimVal.s "access") :=
  c6_access_token_round_trip defaultSettings "a@b.co" "user" 0 60 30 (by decide)

/-- C4: token type is checked explicitly: the Authorization Gate answers
the 401 credentials error for every successfully decoded token whose
`type` claim is not `"access"` (so a valid refresh token never grants
resource access), and the refresh operation rejects — never returning a
token pair — every token whose `type` claim is not `"refresh"`. -/
theorem c4_token_type_checked :
    (∀ (st : Settings) (db : List User) (now : Nat) (tok : JoseToken) (payload : Claims),
      decode_token st now tok = .ok payload →
      payload.get "type" ≠ some (ClaimVal.s "access") →
      get_current_user st db now tok =
        .error (PyExc.http 401 "Could not validate credentials")) ∧
    (∀ (st : Settings) (db : List User) (now : Nat) (tok : JoseToken) (payload : Claims),
      jwtDecode tok st.SECRET_KEY now = .ok payload →
      payload.get "type" ≠ some (ClaimVal.s "refresh") →
      refresh_token_endpoint st db now tok =
        .error (PyExc.http 401 "Invalid refresh token") ∧
      ∀ pair, refresh_token_endpoint st db now tok ≠ .ok pair) := by
  constructor
  · intro st db now tok payload hdec htype
    have ht : (payload.get "type" != some (ClaimVal.s "access")) = true :=
      bne_iff_ne.mpr htype
    unfold get_current_user
    rw [hdec]
    simp [ht, credentialsExc]
  · intro st db now tok payload _ _
    refine ⟨rfl, fun pair hcontra => ?_⟩
    rw [show refresh_token_endpoint st db now tok =
          .error (PyExc.http 401 "Invalid refresh token") from rfl] at hcontra
    exact Except.noConfusion hcontra

/-- Witness for C4 at concrete tokens: a valid refresh token presented to
the gate is rejected with the 401 credentials error, and a valid access
token presented to the refresh operation is rejected. -/
theorem c4_token_type_checked_witness :
    get_current_user defaultSettings [] 10
        (create_refresh_token defaultSettings
          [("sub", ClaimVal.s "a@b.co"), ("role", ClaimVal.s "user")] 0) =
      .error (PyExc.http 401 "Could not validate credentials") ∧
    refresh_token_endpoint defaultSettings [] 10
        (create_access_token defaultSettings
          [("sub", ClaimVal.s "a@b.co"), ("role", ClaimVal.s "user")] (some 60) 0) =
      .error (PyExc.http 401 "Invalid refresh token") :=
  ⟨c4_token_type_checked.1 defaultSettings [] 10
      (create_refresh_token defaultSettings
        [("sub", ClaimVal.s "a@b.co"), ("role", ClaimVal.s "user")] 0)
      [("sub", ClaimVal.s "a@b.co"), ("role", ClaimVal.s "user"),
       ("exp", ClaimVal.n 604800), ("type", ClaimVal.s "refresh"), ("iat", ClaimVal.n 0)]
      (by decide) (by decide),
   (c4_token_type_checked.2 defaultSettings [] 10
      (create_access_token defaultSettings
        [("sub", ClaimVal.s "a@b.co"), ("role", ClaimVal.s "user")] (some 60) 0)
      [("sub", ClaimVal.s "a@b.co"), ("role", ClaimVal.s "user"),
       ("exp", ClaimVal.n 60), ("type", ClaimVal.s "access"), ("iat", ClaimVal.n 0)]
      (by decide) (by decide)).1⟩

/-- C3: a login with an email matching no account and a login with an
email matching an account whose stored hash rejects the password produce
the identical generic 401 "Invalid login credentials" result, and exactly
one password verification runs in either case (the missing-account branch
verifying against the precomputed dummy hash). -/
theorem c3_login_uniform_failure (st : Settings) (checker : String → String → Bool)
    (db : List User) (uname1 uname2 pw : String) (now : Nat) (u : User)
    (h1 : db.find? (fun x => x.email == sanitize_input uname1) = Option.none)
    (h2 : db.find? (fun x => x.email == sanitize_input uname2) = some u)
    (h3 : verify_password checker pw u.hashed_password = .ok false) :
    login st checker db uname1 pw now =
      ⟨.error (PyExc.http 401 "Invalid login credentials"), 1⟩ ∧
    login st checker db uname2 pw now =
      ⟨.error (PyExc.http 401 "Invalid login credentials"), 1⟩ := by
  have hdummy : verify_password checker pw dummyBcryptHash = .ok (checker pw dummyBcryptHash) := by
    unfold verify_password pwd_context_verify
    rw [if_pos (by decide : bcryptRecognized dummyBcryptHash = true)]
  constructor
  · unfold login
    rw [h1]
    simp [hdummy]
  · unfold login
    rw [h2]
    simp [h3]

/-- Witness for C3: a one-user table, a missing email and a wrong
password. -/
theorem c3_login_uniform_failure_witness :
    login defaultSettings (fun _ _ => false)
        [{ id := 1, email := "alice@x.co", hashed_password := dummyBcryptHash,
           role := "user", is_active := true }] "bob@x.co" "pw" 0 =
      ⟨.error (PyExc.http 401 "Invalid login credentials"), 1⟩ ∧
    login defaultSettings (fun _ _ => false)
        [{ id := 1, email := "alice@x.co", hashed_password := dummyBcryptHash,
           role := "user", is_active := true }] "alice@x.co" "pw" 0 =
      ⟨.error (PyExc.http 401 "Invalid login credentials"), 1⟩ :=
  c3_login_uniform_failure defaultSettings (fun _ _ => false)
    [{ id := 1, email := "alice@x.co", hashed_password := dummyBcryptHash,
       role := "user", is_active := true }] "bob@x.co" "alice@x.co" "pw" 0
    { id := 1, email := "alice@x.co", hashed_password := dummyBcryptHash,
      role := "user", is_active := true }
    (by decide) (by decide) (by decide)

/-- Witness for C10's amended theorem: an owned course is truthy, a
missing course yields `None`. -/
theorem c10_course_ownership_witness :
    (verify_resource_owner [{ id := 5, instructor_id := 7 }] [] 5 "course" 7).truthy = true ∧
    verify_resource_owner [{ id := 5, instructor_id := 7 }] [] 3 "course" 7 = PyVal.none :=
  ⟨(c10_course_ownership [{ id := 5, instructor_id := 7 }] [] 5 7).1.mpr
      ⟨{ id := 5, instructor_id := 7 }, by decide, rfl⟩,
   (c10_course_ownership [{ id := 5, instructor_id := 7 }] [] 3 7).2.1 (by decide)⟩

theorem charsStartWith_append (p l2 : List Char) : charsStartWith (p ++ l2) p = true := by
  induction p with
  | nil => simp [charsStartWith]
  | cons c cs ih => simp [charsStartWith, ih]

theorem charsContain_infix (l1 p l2 : List Char) :
    charsContain (l1 ++ (p ++ l2)) p = true := by
  induction l1 with
  | nil =>
    simp only [List.nil_append]
    unfold charsContain
    simp [charsStartWith_append]
  | cons x t ih =>
    simp only [List.cons_append]
    unfold charsContain
    simp [ih]

theorem scanTriples_exists {f : Char → Char → Char → Bool} :
    ∀ l : List Char, scanTriples f l = true →
      ∃ a b c l1 l2, l = l1 ++ ([a, b, c] ++ l2) ∧ f a b c = true := by
  intro l
  induction l with
  | nil => intro h; simp [scanTriples] at h
  | cons x t ih =>
    intro h
    cases t with
    | nil => simp [scanTriples] at h
    | cons y t2 =>
      cases t2 with
      | nil => simp [scanTriples] at h
      | cons z t3 =>
        rw [show scanTriples f (x :: y :: z :: t3) =
              (f x y z || scanTriples f (y :: z :: t3)) from rfl] at h
        by_cases hf : f x y z = true
        · exact ⟨x, y, z, [], t3, rfl, hf⟩
        · have h2 : scanTriples f (y :: z :: t3) = true := by
            cases hxyz : f x y z
            · rw [hxyz] at h; simpa using h
            · exact absurd hxyz hf
          obtain ⟨a, b, c, l1, l2, heq, hfa⟩ := ih h2
          exact ⟨a, b, c, x :: l1, l2, by simp [heq], hfa⟩

theorem seq_mem_alpha (x : Nat) (h1 : 97 ≤ x) (h2 : x ≤ 120) :
    String.mk [Char.ofNat x, Char.ofNat (x + 1), Char.ofNat (x + 2)] ∈ seqTriples := by
  interval_cases x <;> decide

theorem seq_mem_digit_asc (x : Nat) (h1 : 48 ≤ x) (h2 : x ≤ 55) :
    String.mk [Char.ofNat x, Char.ofNat (x + 1), Char.ofNat (x + 2)] ∈ seqTriples := by
  interval_cases x <;> decide

theorem seq_mem_digit_desc (x : Nat) (h1 : 48 ≤ x) (h2 : x ≤ 55) :
    String.mk [Char.ofNat (x + 2), Char.ofNat (x + 1), Char.ofNat x] ∈ seqTriples := by
  interval_cases x <;> decide

theorem codeRunTriple_mem (a b c : Char) (h : codeRunTriple a b c = true) :
    String.mk [a, b, c] ∈ seqTriples := by
  unfold codeRunTriple isAsciiLetter isAsciiDigit at h
  simp only [Bool.or_eq_true, Bool.and_eq_true, decide_eq_true_eq, beq_iff_eq] at h
  rcases h with (⟨⟨⟨⟨h97, h122⟩, hc97, hc122⟩, hb⟩, hc⟩ |
    ⟨⟨⟨⟨h48, h57⟩, hc48, hc57⟩, hb⟩, hc⟩) | ⟨⟨⟨⟨h48, h57⟩, hc48, hc57⟩, hb⟩, ha⟩
  · have hmem := seq_mem_alpha a.toNat h97 (by omega)
    rwa [Char.ofNat_toNat, ← hb, Char.ofNat_toNat, ← hc, Char.ofNat_toNat] at hmem
  · have hmem := seq_mem_digit_asc a.toNat h48 (by omega)
    rwa [Char.ofNat_toNat, ← hb, Char.ofNat_toNat, ← hc, Char.ofNat_toNat] at hmem
  · have hmem := seq_mem_digit_desc c.toNat hc48 (by omega)
    rwa [← ha, Char.ofNat_toNat, ← hb, Char.ofNat_toNat, Char.ofNat_toNat] at hmem

theorem seqAny_of_codeRun (pw : String) (h : codeHasSequentialRun pw = true) :
    (seqTriples.any (fun t => charsContain (pyLower pw).toList t.toList)) = true := by
  have h' : scanTriples codeRunTriple (pyLower pw).toList = true := h
  obtain ⟨a, b, c, l1, l2, heq, hf⟩ := scanTriples_exists _ h'
  rw [List.any_eq_true]
  refine ⟨String.mk [a, b, c], codeRunTriple_mem a b c hf, ?_⟩
  show charsContain (pyLower pw).toList [a, b, c] = true
  rw [heq]
  exact charsContain_infix l1 [a, b, c] l2

theorem validate_valid_imp_no_seq (st : Settings) (pw : String)
    (hv : (validate_password_strength st pw).valid = true) :
    (seqTriples.any (fun t => charsContain (pyLower pw).toList t.toList)) = false := by
  unfold validate_password_strength at hv
  split_ifs at hv with h1 h2 h3 h4 h5 h6 h7 h8
  all_goals simp_all

/-- C9 counterexample: "Xcba!Qm9Zw#p" contains the descending alphabetic
run "cba" (a 3-character descending run in the claim's sense) and passes
every earlier rule, yet `validate_password_strength` accepts it as strong
— the source's sequential-characters alternatives cover no descending
alphabetic triples, so the claim is false as stated. -/
theorem c9_counterexample_descending_alpha_accepted :
    specHasSequentialRun "Xcba!Qm9Zw#p" = true ∧
    validate_password_strength defaultSettings "Xcba!Qm9Zw#p" =
      ⟨true, "Password is strong"⟩ := by
  decide

/-- C9 amended: every password containing a 3-character ascending
alphabetic run, or an ascending or descending numeric run
(case-insensitive), is rejected by `validate_password_strength`;
descending alphabetic runs are outside the rule's coverage. -/
theorem c9_covered_runs_rejected (st : Settings) (pw : String)
    (h : codeHasSequentialRun pw = true) :
    (validate_password_strength st pw).valid = false := by
  cases hv : (validate_password_strength st pw).valid with
  | false => rfl
  | true =>
    have h1 := seqAny_of_codeRun pw h
    have h2 := validate_valid_imp_no_seq st pw hv
    rw [h1] at h2
    exact Bool.noConfusion h2

/-- Witness for C9's amended theorem at a password containing "abc". -/
theorem c9_covered_runs_rejected_witness :
    (validate_password_strength defaultSettings "Xabc!Qm9Zw#p").valid = false :=
  c9_covered_runs_rejected defaultSettings "Xabc!Qm9Zw#p" (by decide)
